import Mathlib

set_option maxRecDepth 4000

/-!
Verification of the inspection-form application (formulario-inspecao-py).

The development shallowly embeds the three components the specification
describes:

* the status/validity component (date_validator.py): pure date arithmetic
  on proleptic Gregorian calendar dates in the fixed YYYY-MM-DD textual
  form, with the 30-day-month validity convention;
* the persistence component (database.py): an explicit-state model of the
  two SQLite tables (inspecoes, historico_alteracoes), the photo files on
  disk, and the AUTOINCREMENT counter;
* the document component (report_generator.py): batch report generation
  over a filesystem/renderer environment.

Python datetime.date values are modelled as year/month/day triples of
naturals; date ordering and subtraction go through toRata, the count of
days since the calendar epoch, and timedelta addition is day-stepping
(addDays).  The wall clock (datetime.now) is an explicit parameter.
-/

/-! ## Calendar model (shallow embedding of Python datetime.date) -/

structure Date where
  year : Nat
  month : Nat
  day : Nat
deriving DecidableEq, Repr

/-- Gregorian leap-year rule, as Python datetime implements it. -/
def isLeap (y : Nat) : Bool :=
  decide (y % 4 = 0 ∧ (y % 100 ≠ 0 ∨ y % 400 = 0))

def daysInMonth (y : Nat) : Nat → Nat
  | 1 => 31
  | 2 => if isLeap y then 29 else 28
  | 3 => 31
  | 4 => 30
  | 5 => 31
  | 6 => 30
  | 7 => 31
  | 8 => 31
  | 9 => 30
  | 10 => 31
  | 11 => 30
  | 12 => 31
  | _ => 0

/-- Days in year y that precede the first day of month m (tabulated). -/
def daysBeforeMonth (y : Nat) : Nat → Nat
  | 1 => 0
  | 2 => 31
  | 3 => if isLeap y then 60 else 59
  | 4 => if isLeap y then 91 else 90
  | 5 => if isLeap y then 121 else 120
  | 6 => if isLeap y then 152 else 151
  | 7 => if isLeap y then 182 else 181
  | 8 => if isLeap y then 213 else 212
  | 9 => if isLeap y then 244 else 243
  | 10 => if isLeap y then 274 else 273
  | 11 => if isLeap y then 305 else 304
  | 12 => if isLeap y then 335 else 334
  | _ => 0

/-- Number of leap years in 1..y-1. -/
def leapsBefore (y : Nat) : Nat :=
  (y - 1) / 4 + (y - 1) / 400 - (y - 1) / 100

/-- Day count of a date (1-based, day 1 is January 1 of year 1); date
ordering and date subtraction in Python compare exactly these counts. -/
def toRata (d : Date) : Nat :=
  365 * (d.year - 1) + leapsBefore d.year + daysBeforeMonth d.year d.month + d.day

def Valid (d : Date) : Prop :=
  1 ≤ d.year ∧ 1 ≤ d.month ∧ d.month ≤ 12 ∧ 1 ≤ d.day ∧ d.day ≤ daysInMonth d.year d.month

instance (d : Date) : Decidable (Valid d) := by unfold Valid; infer_instance

/-- The calendar successor of a date. -/
def nextDay (d : Date) : Date :=
  if d.day < daysInMonth d.year d.month then ⟨d.year, d.month, d.day + 1⟩
  else if d.month < 12 then ⟨d.year, d.month + 1, 1⟩
  else ⟨d.year + 1, 1, 1⟩

/-- date + timedelta(days = n), as day-stepping on the calendar. -/
def addDays (d : Date) : Nat → Date
  | 0 => d
  | n + 1 => nextDay (addDays d n)

lemma daysInMonth_pos (y m : Nat) (h1 : 1 ≤ m) (h2 : m ≤ 12) :
    1 ≤ daysInMonth y m := by
  interval_cases m <;> cases hL : isLeap y <;> simp [daysInMonth, hL]

lemma leapsBefore_succ (y : Nat) (hy : 1 ≤ y) :
    leapsBefore (y + 1) = leapsBefore y + (if isLeap y then 1 else 0) := by
  obtain ⟨k, rfl⟩ : ∃ k, y = k + 1 := ⟨y - 1, by omega⟩
  have h4 := Nat.succ_div k 4
  have h100 := Nat.succ_div k 100
  have h400 := Nat.succ_div k 400
  have hba : k / 100 ≤ k / 4 := Nat.div_le_div_left (by norm_num) (by norm_num)
  have hcb : k / 400 ≤ k / 100 := Nat.div_le_div_left (by norm_num) (by norm_num)
  by_cases d4 : (4:Nat) ∣ (k+1) <;> by_cases d100 : (100:Nat) ∣ (k+1) <;>
    by_cases d400 : (400:Nat) ∣ (k+1)
  all_goals (
    first
      | exact absurd (dvd_trans (by norm_num : (100:Nat) ∣ 400) d400) d100
      | exact absurd (dvd_trans (by norm_num : (4:Nat) ∣ 100) d100) d4
      | (simp only [d4, d100, d400, if_true, if_false, if_pos, if_neg,
          not_false_iff] at h4 h100 h400
         have hL : (if isLeap (k+1) then 1 else 0)
             = (if (k+1) % 4 = 0 ∧ ((k+1) % 100 ≠ 0 ∨ (k+1) % 400 = 0) then 1 else 0) := by
           simp [isLeap]
         simp only [leapsBefore, Nat.add_sub_cancel, hL]
         split <;> omega))

lemma toRata_nextDay (d : Date) (h : Valid d) : toRata (nextDay d) = toRata d + 1 := by
  obtain ⟨y, m, dd⟩ := d
  obtain ⟨hy, hm1, hm2, hd1, hd2⟩ := h
  try dsimp only at hy hm1 hm2 hd1 hd2
  unfold nextDay
  try dsimp only
  split
  · simp only [toRata]
    try dsimp only
    omega
  · rename_i hlt
    try dsimp only at hlt
    have hday : dd = daysInMonth y m := by omega
    split
    · rename_i hm12
      try dsimp only at hm12
      subst hday
      simp only [toRata]
      try dsimp only
      interval_cases m <;>
        (cases hL : isLeap y <;> simp [daysBeforeMonth, daysInMonth, hL])
    · rename_i hm12
      try dsimp only at hm12
      have hm : m = 12 := by omega
      subst hm
      subst hday
      have hls := leapsBefore_succ y hy
      simp only [toRata]
      try dsimp only
      simp only [daysBeforeMonth, daysInMonth, Nat.add_sub_cancel]
      cases hL : isLeap y <;> simp [hL] at hls ⊢ <;> omega

lemma valid_nextDay (d : Date) (h : Valid d) : Valid (nextDay d) := by
  obtain ⟨y, m, dd⟩ := d
  obtain ⟨hy, hm1, hm2, hd1, hd2⟩ := h
  try dsimp only at hy hm1 hm2 hd1 hd2
  unfold nextDay
  try dsimp only
  split
  · rename_i hlt
    try dsimp only at hlt
    exact ⟨hy, hm1, hm2, by try dsimp only; omega, by try dsimp only; omega⟩
  · rename_i hlt
    try dsimp only at hlt
    split
    · rename_i hm12
      try dsimp only at hm12
      refine ⟨hy, by try dsimp only; omega, by try dsimp only; omega, by try dsimp only; omega, ?_⟩
      try dsimp only
      exact daysInMonth_pos y (m+1) (by omega) (by omega)
    · refine ⟨by try dsimp only; omega, by try dsimp only; omega, by try dsimp only; omega,
        by try dsimp only; omega, ?_⟩
      try dsimp only
      simp [daysInMonth]

lemma toRata_addDays (d : Date) (h : Valid d) (n : Nat) :
    toRata (addDays d n) = toRata d + n ∧ Valid (addDays d n) := by
  induction n with
  | zero => exact ⟨rfl, h⟩
  | succ n ih =>
    obtain ⟨h1, h2⟩ := ih
    refine ⟨?_, valid_nextDay _ h2⟩
    show toRata (nextDay (addDays d n)) = _
    rw [toRata_nextDay _ h2, h1]
    omega

/-! ## YYYY-MM-DD parsing and formatting (strptime / strftime model) -/

/-- Split a character list at every dash, keeping empty groups. -/
def splitDash : List Char → List (List Char)
  | [] => [[]]
  | c :: rest =>
    let r := splitDash rest
    if c = '-' then [] :: r
    else
      match r with
      | [] => [[c]]
      | g :: gs => (c :: g) :: gs

/-- Decimal digits to a number; none if empty or a non-digit occurs. -/
def parseNatDigits (cs : List Char) : Option Nat :=
  if cs.isEmpty then none
  else if cs.all Char.isDigit then
    some (cs.foldl (fun n c => n * 10 + (c.toNat - 48)) 0)
  else none

/-- Model of datetime.strptime(s, the YYYY-MM-DD form): three dash-separated
decimal fields, month in 1..12, day within the month, year in 1..9999. -/
def parseDate (s : String) : Option Date :=
  match splitDash s.data with
  | [ys, ms, ds] =>
    match parseNatDigits ys, parseNatDigits ms, parseNatDigits ds with
    | some y, some m, some d =>
      if ys.length ≤ 4 ∧ ms.length ≤ 2 ∧ ds.length ≤ 2 ∧
          1 ≤ y ∧ y ≤ 9999 ∧ 1 ≤ m ∧ m ≤ 12 ∧ 1 ≤ d ∧ d ≤ daysInMonth y m
      then some ⟨y, m, d⟩ else none
    | _, _, _ => none
  | _ => none

def natToChars (fuel n : Nat) : List Char :=
  match fuel with
  | 0 => []
  | f + 1 =>
    if n < 10 then [Nat.digitChar n]
    else natToChars f (n / 10) ++ [Nat.digitChar (n % 10)]

def padChars (w : Nat) (cs : List Char) : List Char :=
  List.replicate (w - cs.length) '0' ++ cs

/-- Model of strftime(d, the YYYY-MM-DD form), zero-padded fields. -/
def formatDate (d : Date) : String :=
  String.mk (padChars 4 (natToChars 6 d.year) ++ ['-'] ++
    padChars 2 (natToChars 6 d.month) ++ ['-'] ++ padChars 2 (natToChars 6 d.day))

lemma parseDate_valid (s : String) (d : Date) (h : parseDate s = some d) : Valid d := by
  unfold parseDate at h
  split at h
  · split at h
    · split at h
      · rename_i hc
        cases h
        exact ⟨hc.2.2.2.1, hc.2.2.2.2.2.1, hc.2.2.2.2.2.2.1,
          hc.2.2.2.2.2.2.2.1, hc.2.2.2.2.2.2.2.2⟩
      · cases h
    · cases h
  · cases h

lemma parseDate_empty : parseDate "" = none := by decide

/-! ## Status/validity component (date_validator.py), over an explicit today -/

/-- validate_inspection_date: current-inspection date must parse, not be in
the future, and be at most 30 days old. -/
def validateInspectionDate (s : String) (today : Date) : Bool × String :=
  if s = "" then (false, "Data de inspeção é obrigatória")
  else
    match parseDate s with
    | none => (false, "Formato de data inválido. Use YYYY-MM-DD")
    | some d =>
      if toRata today < toRata d then
        (false, "Data de inspeção não pode ser no futuro")
      else if (toRata d : Int) < (toRata today : Int) - 30 then
        (false, "Data de inspeção não pode ser há mais de 30 dias")
      else (true, "Data válida")

/-- validate_last_inspection_date: last-inspection date must parse, not be in
the future, and be at most 10 years (3650 days) old. -/
def validateLastInspectionDate (s : String) (today : Date) : Bool × String :=
  if s = "" then (false, "Data da última inspeção é obrigatória")
  else
    match parseDate s with
    | none => (false, "Formato de data inválido. Use YYYY-MM-DD")
    | some d =>
      if toRata today < toRata d then
        (false, "Data da última inspeção não pode ser no futuro")
      else if (toRata d : Int) < (toRata today : Int) - 3650 then
        (false, "Data da última inspeção não pode ser há mais de 10 anos")
      else (true, "Data válida")

/-- calculate_next_inspection_date: last date plus validity_months * 30 days,
or the empty string when the input does not parse. -/
def calculateNextInspectionDate (s : String) (validityMonths : Nat) : String :=
  match parseDate s with
  | none => ""
  | some last => formatDate (addDays last (validityMonths * 30))

/-- is_overdue: today is strictly past the due date. -/
def isOverdue (s : String) (validityMonths : Nat) (today : Date) : Bool :=
  if s = "" then false
  else
    match parseDate s with
    | none => false
    | some last => decide (toRata (addDays last (validityMonths * 30)) < toRata today)

/-- get_days_until_due: signed day count from today to the due date. -/
def getDaysUntilDue (s : String) (validityMonths : Nat) (today : Date) : Int :=
  if s = "" then 0
  else
    match parseDate s with
    | none => 0
    | some last =>
      (toRata (addDays last (validityMonths * 30)) : Int) - (toRata today : Int)

/-- validate_date_range: both present, start not after end, span at most
365 days. -/
def validateDateRange (startDate endDate : String) : Bool × String :=
  if startDate = "" ∨ endDate = "" then (false, "Ambas as datas são obrigatórias")
  else
    match parseDate startDate, parseDate endDate with
    | some ds, some de =>
      if toRata de < toRata ds then
        (false, "Data inicial não pode ser posterior à data final")
      else if 365 < toRata de - toRata ds then
        (false, "Intervalo não pode ser maior que 1 ano")
      else (true, "Intervalo válido")
    | _, _ => (false, "Formato de data inválido. Use YYYY-MM-DD")

inductive InspStatus where
  | unknown
  | overdue
  | warning
  | attention
  | ok
  | error
deriving DecidableEq, Repr

/-- The fields of the dict returned by get_inspection_status that the spec
talks about (the remaining keys are display-formatted copies of these). -/
structure StatusInfo where
  status : InspStatus
  message : String
  is_overdue : Bool
  days_until_due : Int
  next_inspection_date : String
deriving DecidableEq, Repr

/-- get_inspection_status: unknown on empty input, error on a parse failure,
otherwise classified by the signed days to the due date. -/
def getInspectionStatus (s : String) (validityMonths : Nat) (today : Date) : StatusInfo :=
  if s = "" then ⟨.unknown, "Data não informada", false, 0, ""⟩
  else
    match parseDate s with
    | none => ⟨.error, "Erro ao processar data", false, 0, ""⟩
    | some last =>
      let next := addDays last (validityMonths * 30)
      let d : Int := (toRata next : Int) - (toRata today : Int)
      let st :=
        if d < 0 then InspStatus.overdue
        else if d ≤ 30 then InspStatus.warning
        else if d ≤ 90 then InspStatus.attention
        else InspStatus.ok
      let msg :=
        if d < 0 then "Inspeção vencida!"
        else if d ≤ 30 then "Inspeção vence em breve"
        else if d ≤ 90 then "Inspeção vence em alguns meses"
        else "Inspeção em dia"
      ⟨st, msg, decide (d < 0), d, formatDate next⟩

/-! ## Persistence component (database.py) with the form layer (main.py) -/

/-- A Python dict of string fields, in insertion order. -/
def Dict := List (String × String)

/-- data.get(key, default): first binding of the key, or the default. -/
def dgetD (d : Dict) (k dfl : String) : String :=
  match List.find? (fun p => p.1 == k) d with
  | some p => p.2
  | none => dfl

/-- data.get(key, the empty string). -/
def dget (d : Dict) (k : String) : String := dgetD d k ""

/-- One row of the inspecoes table (columns in schema order). -/
structure Row where
  id : Nat
  plataforma : String
  modulo : String
  setor : String
  tipo_equipamento : String
  tag : String
  defeito : String
  causa : String
  categoria_rti : String
  recomendacao : String
  ultima_inspecao : String
  data_inspecao : String
  tipo_dano : String
  observacoes : String
  foto_path : String
  created_at : String
  updated_at : String
deriving DecidableEq, Repr

/-- dict(row) for a sqlite3.Row: keys are the column names, in column
order, with every value rendered as text (str is applied by the caller). -/
def rowToDict (r : Row) : Dict :=
  [("id", toString r.id),
   ("plataforma", r.plataforma),
   ("modulo", r.modulo),
   ("setor", r.setor),
   ("tipo_equipamento", r.tipo_equipamento),
   ("tag", r.tag),
   ("defeito", r.defeito),
   ("causa", r.causa),
   ("categoria_rti", r.categoria_rti),
   ("recomendacao", r.recomendacao),
   ("ultima_inspecao", r.ultima_inspecao),
   ("data_inspecao", r.data_inspecao),
   ("tipo_dano", r.tipo_dano),
   ("observacoes", r.observacoes),
   ("foto_path", r.foto_path),
   ("created_at", r.created_at),
   ("updated_at", r.updated_at)]

/-- One row of the historico_alteracoes table. -/
structure LogRow where
  inspecao_id : Nat
  campo : String
  valor_anterior : String
  valor_novo : String
deriving DecidableEq, Repr

/-- Database plus filesystem state: the two tables, the set of photo file
paths on disk, and the AUTOINCREMENT counter of inspecoes. -/
structure DBState where
  inspecoes : List Row
  historico : List LogRow
  files : List String
  nextId : Nat
deriving DecidableEq, Repr

/-- The field reads save_inspection and update_inspection perform on the
submitted dict (note the camelCase form keys for five of the columns). -/
def rowFromData (iid : Nat) (data : Dict) (createdAt updatedAt : String) : Row :=
  { id := iid
    plataforma := dget data "plataforma"
    modulo := dget data "modulo"
    setor := dget data "setor"
    tipo_equipamento := dget data "tipoEquipamento"
    tag := dget data "tag"
    defeito := dget data "defeito"
    causa := dget data "causa"
    categoria_rti := dget data "categoriaRTI"
    recomendacao := dget data "recomendacao"
    ultima_inspecao := dget data "ultima"
    data_inspecao := dget data "data"
    tipo_dano := dget data "tipoDano"
    observacoes := dget data "observacoes"
    foto_path := dget data "foto_path"
    created_at := createdAt
    updated_at := updatedAt }

/-- save_inspection: INSERT a fresh row, return its AUTOINCREMENT id. -/
def saveInspection (st : DBState) (data : Dict) (now : String) : DBState × Nat :=
  let iid := st.nextId
  ({ st with
      inspecoes := st.inspecoes ++ [rowFromData iid data now now]
      nextId := iid + 1 },
   iid)

/-- _log_changes: walk the keys of the stored record dict, skip id and the
two timestamps, and emit one history row per textual difference between
old_data.get(field) and new_data.get(field). -/
def logChanges (iid : Nat) (oldData newData : Dict) : List LogRow :=
  oldData.filterMap fun p =>
    if p.1 = "id" ∨ p.1 = "created_at" ∨ p.1 = "updated_at" then none
    else
      let oldValue := dget oldData p.1
      let newValue := dget newData p.1
      if oldValue ≠ newValue then some ⟨iid, p.1, oldValue, newValue⟩ else none

/-- update_inspection: look the row up; on a miss return False untouched,
otherwise overwrite the row (created_at preserved, updated_at set to now),
append the _log_changes rows, commit, and return True. -/
def updateInspection (st : DBState) (iid : Nat) (data : Dict) (now : String) :
    DBState × Bool :=
  match st.inspecoes.find? (fun r => r.id == iid) with
  | none => (st, false)
  | some cur =>
    let newRow := rowFromData iid data cur.created_at now
    ({ st with
        inspecoes := st.inspecoes.map (fun r => if r.id == iid then newRow else r)
        historico := st.historico ++ logChanges iid (rowToDict cur) data },
     true)

/-- delete_inspection: best-effort photo removal first, then the DELETE.
With foreign keys on and no cascade, the DELETE fails (and rolls back) when
history rows still reference the record; the photo removal is filesystem
work and is not rolled back.  A miss deletes nothing and still commits,
returning True. -/
def deleteInspection (st : DBState) (iid : Nat) : DBState × Bool :=
  match st.inspecoes.find? (fun r => r.id == iid) with
  | none => (st, true)
  | some cur =>
    let files2 :=
      if cur.foto_path = "" then st.files
      else st.files.filter (fun f => f != cur.foto_path)
    if st.historico.any (fun l => l.inspecao_id == iid) then
      ({ st with files := files2 }, false)
    else
      ({ st with
          inspecoes := st.inspecoes.filter (fun r => r.id != iid)
          files := files2 },
       true)

/-- The photo-removal loop of clear_all_inspections: os.remove each
referenced photo that exists, skipping rows with an empty reference and
paths already absent. -/
def removeReferencedPhotos : List Row → List String → List String
  | [], files => files
  | r :: rest, files =>
    removeReferencedPhotos rest
      (if r.foto_path = "" then files else files.filter (fun f => f != r.foto_path))

/-- clear_all_inspections: remove the photos, then DELETE the inspecoes
rows and the history rows.  The parent-table DELETE runs first, so it hits
the foreign-key constraint (and rolls both deletes back) whenever a history
row still references a stored record. -/
def clearAllInspections (st : DBState) : DBState × Bool :=
  let files2 := removeReferencedPhotos st.inspecoes st.files
  if st.inspecoes.any (fun r => st.historico.any (fun l => l.inspecao_id == r.id)) then
    ({ st with files := files2 }, false)
  else
    ({ st with inspecoes := [], historico := [], files := files2 }, true)

/-- ASCII whitespace test, as Python str.strip treats form input. -/
def isSpaceChar (c : Char) : Bool :=
  c == ' ' || c == '\t' || c == '\n' || c == '\r'

/-- str.strip(): drop leading and trailing whitespace. -/
def strim (s : String) : String :=
  String.mk (((s.data.dropWhile isSpaceChar).reverse.dropWhile isSpaceChar).reverse)

/-- The required-field list of InspectionApp.validate_form (main.py); the
tag, notes and photo fields are not on it. -/
def requiredFields : List String :=
  ["plataforma", "modulo", "setor", "tipoEquipamento", "defeito", "causa",
   "categoriaRTI", "recomendacao", "ultima", "data", "tipoDano"]

/-- validate_form: every required field is non-empty after stripping. -/
def validateForm (data : Dict) : Bool :=
  requiredFields.all (fun k => !(strim (dget data k) == ""))

/-- collect_form_data: the submitted dict, with every field stripped except
the photo path. -/
def collectFormData (data : Dict) : Dict :=
  [("plataforma", strim (dget data "plataforma")),
   ("modulo", strim (dget data "modulo")),
   ("setor", strim (dget data "setor")),
   ("tipoEquipamento", strim (dget data "tipoEquipamento")),
   ("tag", strim (dget data "tag")),
   ("defeito", strim (dget data "defeito")),
   ("causa", strim (dget data "causa")),
   ("categoriaRTI", strim (dget data "categoriaRTI")),
   ("recomendacao", strim (dget data "recomendacao")),
   ("ultima", strim (dget data "ultima")),
   ("data", strim (dget data "data")),
   ("tipoDano", strim (dget data "tipoDano")),
   ("observacoes", strim (dget data "observacoes")),
   ("foto_path", dget data "foto_path")]

/-- The create path of the form (save button): validate_form, then
collect_form_data and save_inspection; a validation failure reports the
missing field and performs no insert. -/
def createInspection (st : DBState) (data : Dict) (now : String) :
    DBState × Option Nat :=
  if validateForm data then
    let r := saveInspection st (collectFormData data) now
    (r.1, some r.2)
  else (st, none)

/-! ## Document component (report_generator.py) -/

/-- The environment a report generation runs against: which paths exist on
disk, which existing photo files the PDF engine can actually render while
building the document, and the filename timestamp. -/
structure ReportEnv where
  fileExists : String → Bool
  imageRenders : String → Bool
  timestamp : String

/-- generate_inspection_report: the photo section is included only when a
non-empty path exists on disk; building the document raises (and the
function re-raises) exactly when an included photo cannot be rendered.
On success the generated file path is returned. -/
def generateInspectionReport (env : ReportEnv) (data : Dict) (photoPath : String) :
    Except String String :=
  let filename :=
    "relatorio_inspecao_" ++ dgetD data "tag" "UNKNOWN" ++ "_" ++ env.timestamp ++ ".pdf"
  if photoPath ≠ "" ∧ env.fileExists photoPath = true ∧ env.imageRenders photoPath = false
  then Except.error ("Erro ao gerar relatório: " ++ photoPath)
  else Except.ok ("relatorios/" ++ filename)

/-- Whether generate_inspection_report succeeds on this record: it fails
exactly when the record points at an existing photo file that does not
render. -/
def recordRenders (env : ReportEnv) (insp : Dict) : Bool :=
  let p := dget insp "foto_path"
  !(p != "" && env.fileExists p && !env.imageRenders p)

/-- generate_batch_reports: one report per record, appending each produced
path; a per-record failure is caught, logged and skipped, and the final
count reported is the length of the accumulated list. -/
def generateBatchReports (env : ReportEnv) (inspections : List Dict) : List String :=
  inspections.foldl
    (fun acc insp =>
      match generateInspectionReport env insp (dget insp "foto_path") with
      | Except.ok p => acc ++ [p]
      | Except.error _ => acc)
    []

/-! ## Concrete sample data for the closed theorems -/

/-- A stored record with every content field non-empty. -/
def sampleRow : Row :=
  { id := 1
    plataforma := "P-1"
    modulo := "M01"
    setor := "S01"
    tipo_equipamento := "Vaso de Pressão"
    tag := "VP-001"
    defeito := "Trinca"
    causa := "Impacto"
    categoria_rti := "II"
    recomendacao := "Pintura"
    ultima_inspecao := "2024-01-01"
    data_inspecao := "2024-01-10"
    tipo_dano := "Localizado"
    observacoes := "obs"
    foto_path := "fotos/vp001.jpg"
    created_at := "T0"
    updated_at := "T0" }

def sampleState : DBState :=
  { inspecoes := [sampleRow]
    historico := []
    files := ["fotos/vp001.jpg"]
    nextId := 2 }

/-- A resubmission of sampleRow under the form keys, field for field
identical to the stored values. -/
def identicalResubmission : Dict :=
  [("plataforma", "P-1"),
   ("modulo", "M01"),
   ("setor", "S01"),
   ("tipoEquipamento", "Vaso de Pressão"),
   ("tag", "VP-001"),
   ("defeito", "Trinca"),
   ("causa", "Impacto"),
   ("categoriaRTI", "II"),
   ("recomendacao", "Pintura"),
   ("ultima", "2024-01-01"),
   ("data", "2024-01-10"),
   ("tipoDano", "Localizado"),
   ("observacoes", "obs"),
   ("foto_path", "fotos/vp001.jpg")]

def emptyState : DBState :=
  { inspecoes := [], historico := [], files := [], nextId := 1 }

/-- A field set with every required field filled but the tag empty. -/
def tagEmptySubmission : Dict :=
  [("plataforma", "P-2"),
   ("modulo", "M02"),
   ("setor", "S02"),
   ("tipoEquipamento", "Tanque"),
   ("tag", ""),
   ("defeito", "Vazamento"),
   ("causa", "Corrosão interna"),
   ("categoriaRTI", "I"),
   ("recomendacao", "Reparar imediatamente"),
   ("ultima", "2024-02-01"),
   ("data", "2024-02-05"),
   ("tipoDano", "Disperso"),
   ("observacoes", ""),
   ("foto_path", "")]

/-- A batch environment with one renderable and one corrupt photo file. -/
def sampleEnv : ReportEnv :=
  { fileExists := fun p => p == "fotos/good.jpg" || p == "fotos/bad.jpg"
    imageRenders := fun p => p == "fotos/good.jpg"
    timestamp := "20240101_120000" }

def goodInsp : Dict := [("tag", "VP-001"), ("foto_path", "fotos/good.jpg")]

def badInsp : Dict := [("tag", "TQ-001"), ("foto_path", "fotos/bad.jpg")]

/-! ## Injectivity of the day count on valid dates -/

lemma daysBeforeMonth_mono (y a b : Nat) (h1 : 1 ≤ a) (hab : a ≤ b) (hb : b ≤ 12) :
    daysBeforeMonth y a ≤ daysBeforeMonth y b := by
  have ha12 : a ≤ 12 := le_trans hab hb
  interval_cases a <;> interval_cases b <;> cases hL : isLeap y <;>
    simp [daysBeforeMonth, hL]

lemma dayOfYear_bounds (y m d : Nat) (hm1 : 1 ≤ m) (hm2 : m ≤ 12) (hd1 : 1 ≤ d)
    (hd2 : d ≤ daysInMonth y m) :
    1 ≤ daysBeforeMonth y m + d ∧
      daysBeforeMonth y m + d ≤ 365 + (if isLeap y then 1 else 0) := by
  interval_cases m <;> cases hL : isLeap y <;>
    simp [daysBeforeMonth, daysInMonth, hL] at hd2 ⊢ <;> omega

lemma leapsBefore_mono (a b : Nat) (h : a ≤ b) : leapsBefore a ≤ leapsBefore b := by
  induction b with
  | zero =>
    have ha : a = 0 := by omega
    simp [ha]
  | succ b ih =>
    rcases Nat.lt_or_ge a (b + 1) with h2 | h2
    · have hab : a ≤ b := by omega
      rcases Nat.eq_zero_or_pos b with rfl | hb
      · have ha : a = 0 := by omega
        simp [ha, leapsBefore]
      · refine le_trans (ih hab) ?_
        rw [leapsBefore_succ b hb]
        split <;> omega
    · have ha : a = b + 1 := by omega
      simp [ha]

lemma toRata_lt_of_year_lt (d1 d2 : Date) (h1 : Valid d1) (h2 : Valid d2)
    (hy : d1.year < d2.year) : toRata d1 < toRata d2 := by
  obtain ⟨hy1, hm11, hm12, hd11, hd12⟩ := h1
  obtain ⟨hy2, hm21, hm22, hd21, hd22⟩ := h2
  have hb1 := dayOfYear_bounds d1.year d1.month d1.day hm11 hm12 hd11 hd12
  have hb2 := dayOfYear_bounds d2.year d2.month d2.day hm21 hm22 hd21 hd22
  have hls := leapsBefore_succ d1.year hy1
  have hmono : leapsBefore (d1.year + 1) ≤ leapsBefore d2.year :=
    leapsBefore_mono _ _ (by omega)
  unfold toRata
  have hy365 : 365 * (d1.year - 1) + 365 ≤ 365 * (d2.year - 1) := by
    have : d1.year ≤ d2.year - 1 := by omega
    calc 365 * (d1.year - 1) + 365 = 365 * d1.year := by omega
    _ ≤ 365 * (d2.year - 1) := Nat.mul_le_mul_left 365 this
  cases hc : isLeap d1.year <;> simp [hc] at hls hb1 <;> omega

lemma toRata_injOn (d1 d2 : Date) (h1 : Valid d1) (h2 : Valid d2)
    (h : toRata d1 = toRata d2) : d1 = d2 := by
  have hyeq : d1.year = d2.year := by
    by_contra hne
    rcases Nat.lt_or_ge d1.year d2.year with hlt | hge
    · exact absurd h (Nat.ne_of_lt (toRata_lt_of_year_lt d1 d2 h1 h2 hlt))
    · have hlt2 : d2.year < d1.year := by omega
      exact absurd h.symm (Nat.ne_of_lt (toRata_lt_of_year_lt d2 d1 h2 h1 hlt2))
  obtain ⟨y1, m1, dd1⟩ := d1
  obtain ⟨y2, m2, dd2⟩ := d2
  obtain ⟨hy1, hm11, hm12, hd11, hd12⟩ := h1
  obtain ⟨hy2, hm21, hm22, hd21, hd22⟩ := h2
  dsimp only at hyeq hy1 hm11 hm12 hd11 hd12 hy2 hm21 hm22 hd21 hd22
  subst hyeq
  unfold toRata at h
  dsimp only at h
  have hdoy : daysBeforeMonth y1 m1 + dd1 = daysBeforeMonth y1 m2 + dd2 := by omega
  have hmeq : m1 = m2 := by
    by_contra hne
    interval_cases m1 <;> interval_cases m2 <;> cases hL : isLeap y1 <;>
      simp [daysBeforeMonth, daysInMonth, hL] at hdoy hd12 hd22 hne <;> omega
  subst hmeq
  have hddeq : dd1 = dd2 := by omega
  subst hddeq
  rfl

/-- Concrete addDays computations, via the day count: if the target date is
valid and sits exactly n days past a valid start date, stepping n days
lands on it. -/
lemma addDays_concrete (d1 d2 : Date) (n : Nat) (h1 : Valid d1) (h2 : Valid d2)
    (h : toRata d2 = toRata d1 + n) : addDays d1 n = d2 := by
  obtain ⟨hr, hv⟩ := toRata_addDays d1 h1 n
  exact toRata_injOn _ _ hv h2 (by rw [hr, h])

/-! ## Shared lemmas about the status component -/

lemma parseDate_ne_empty (s : String) (d : Date) (h : parseDate s = some d) : s ≠ "" := by
  intro e
  subst e
  rw [parseDate_empty] at h
  cases h

lemma getDaysUntilDue_parsed (s : String) (last : Date) (months : Nat) (today : Date)
    (h : parseDate s = some last) :
    getDaysUntilDue s months today
      = ((toRata last + months * 30 : Nat) : Int) - (toRata today : Int) := by
  have hs : s ≠ "" := parseDate_ne_empty s last h
  have hr := (toRata_addDays last (parseDate_valid s last h) (months * 30)).1
  simp [getDaysUntilDue, hs, h, hr]

lemma getInspectionStatus_parsed (s : String) (last : Date) (months : Nat) (today : Date)
    (h : parseDate s = some last) :
    (getInspectionStatus s months today).status
      = (if getDaysUntilDue s months today < 0 then InspStatus.overdue
         else if getDaysUntilDue s months today ≤ 30 then InspStatus.warning
         else if getDaysUntilDue s months today ≤ 90 then InspStatus.attention
         else InspStatus.ok) := by
  have hs : s ≠ "" := parseDate_ne_empty s last h
  simp [getInspectionStatus, getDaysUntilDue, hs, h]

/-! ## Claim theorems -/

/-- Claim C3: get_inspection_status classifies by the signed days until the
due date: negative is overdue, 0..30 is warning, 31..90 is attention, more
than 90 is ok, and an empty last-inspection date gives unknown; in
particular, for the last inspection 2024-01-01 with 12 validity months the
due date is 2024-12-26, and the todays 2024-12-27, 2024-12-26, 2024-11-26,
2024-11-25, 2024-09-27 and 2024-09-26 realize days -1, 0, 30, 31, 90 and 91
with statuses overdue, warning, warning, attention, attention and ok. -/
theorem inspection_status_classification :
    (∀ (s : String) (last : Date) (months : Nat) (today : Date),
        parseDate s = some last →
          ((getDaysUntilDue s months today < 0 →
              (getInspectionStatus s months today).status = InspStatus.overdue) ∧
           (0 ≤ getDaysUntilDue s months today ∧ getDaysUntilDue s months today ≤ 30 →
              (getInspectionStatus s months today).status = InspStatus.warning) ∧
           (31 ≤ getDaysUntilDue s months today ∧ getDaysUntilDue s months today ≤ 90 →
              (getInspectionStatus s months today).status = InspStatus.attention) ∧
           (90 < getDaysUntilDue s months today →
              (getInspectionStatus s months today).status = InspStatus.ok))) ∧
    (∀ (months : Nat) (today : Date),
        (getInspectionStatus "" months today).status = InspStatus.unknown) ∧
    (getDaysUntilDue "2024-01-01" 12 ⟨2024, 12, 27⟩ = -1 ∧
      (getInspectionStatus "2024-01-01" 12 ⟨2024, 12, 27⟩).status = InspStatus.overdue) ∧
    (getDaysUntilDue "2024-01-01" 12 ⟨2024, 12, 26⟩ = 0 ∧
      (getInspectionStatus "2024-01-01" 12 ⟨2024, 12, 26⟩).status = InspStatus.warning) ∧
    (getDaysUntilDue "2024-01-01" 12 ⟨2024, 11, 26⟩ = 30 ∧
      (getInspectionStatus "2024-01-01" 12 ⟨2024, 11, 26⟩).status = InspStatus.warning) ∧
    (getDaysUntilDue "2024-01-01" 12 ⟨2024, 11, 25⟩ = 31 ∧
      (getInspectionStatus "2024-01-01" 12 ⟨2024, 11, 25⟩).status = InspStatus.attention) ∧
    (getDaysUntilDue "2024-01-01" 12 ⟨2024, 9, 27⟩ = 90 ∧
      (getInspectionStatus "2024-01-01" 12 ⟨2024, 9, 27⟩).status = InspStatus.attention) ∧
    (getDaysUntilDue "2024-01-01" 12 ⟨2024, 9, 26⟩ = 91 ∧
      (getInspectionStatus "2024-01-01" 12 ⟨2024, 9, 26⟩).status = InspStatus.ok) := by
  have hp : parseDate "2024-01-01" = some ⟨2024, 1, 1⟩ := by decide
  refine ⟨?_, ?_, ?_, ?_, ?_, ?_, ?_, ?_⟩
  · intro s last months today h
    rw [getInspectionStatus_parsed s last months today h]
    refine ⟨fun hh => ?_, fun hh => ?_, fun hh => ?_, fun hh => ?_⟩ <;>
      split_ifs <;> first | rfl | omega
  · intro months today
    simp [getInspectionStatus]
  · refine ⟨?_, ?_⟩
    · rw [getDaysUntilDue_parsed _ ⟨2024, 1, 1⟩ _ _ hp]
      decide
    · rw [getInspectionStatus_parsed _ ⟨2024, 1, 1⟩ _ _ hp,
          getDaysUntilDue_parsed _ ⟨2024, 1, 1⟩ _ _ hp]
      decide
  · refine ⟨?_, ?_⟩
    · rw [getDaysUntilDue_parsed _ ⟨2024, 1, 1⟩ _ _ hp]
      decide
    · rw [getInspectionStatus_parsed _ ⟨2024, 1, 1⟩ _ _ hp,
          getDaysUntilDue_parsed _ ⟨2024, 1, 1⟩ _ _ hp]
      decide
  · refine ⟨?_, ?_⟩
    · rw [getDaysUntilDue_parsed _ ⟨2024, 1, 1⟩ _ _ hp]
      decide
    · rw [getInspectionStatus_parsed _ ⟨2024, 1, 1⟩ _ _ hp,
          getDaysUntilDue_parsed _ ⟨2024, 1, 1⟩ _ _ hp]
      decide
  · refine ⟨?_, ?_⟩
    · rw [getDaysUntilDue_parsed _ ⟨2024, 1, 1⟩ _ _ hp]
      decide
    · rw [getInspectionStatus_parsed _ ⟨2024, 1, 1⟩ _ _ hp,
          getDaysUntilDue_parsed _ ⟨2024, 1, 1⟩ _ _ hp]
      decide
  · refine ⟨?_, ?_⟩
    · rw [getDaysUntilDue_parsed _ ⟨2024, 1, 1⟩ _ _ hp]
      decide
    · rw [getInspectionStatus_parsed _ ⟨2024, 1, 1⟩ _ _ hp,
          getDaysUntilDue_parsed _ ⟨2024, 1, 1⟩ _ _ hp]
      decide
  · refine ⟨?_, ?_⟩
    · rw [getDaysUntilDue_parsed _ ⟨2024, 1, 1⟩ _ _ hp]
      decide
    · rw [getInspectionStatus_parsed _ ⟨2024, 1, 1⟩ _ _ hp,
          getDaysUntilDue_parsed _ ⟨2024, 1, 1⟩ _ _ hp]
      decide

/-- Witness for C3 at concrete inputs: an overdue case through the general
classification, and the empty-input case. -/
theorem inspection_status_classification_witness :
    (getInspectionStatus "2023-05-05" 12 ⟨2025, 5, 5⟩).status = InspStatus.overdue ∧
    (getInspectionStatus "" 12 ⟨2025, 5, 5⟩).status = InspStatus.unknown :=
  ⟨(inspection_status_classification.1 "2023-05-05" ⟨2023, 5, 5⟩ 12 ⟨2025, 5, 5⟩
        (by decide)).1
      (by rw [getDaysUntilDue_parsed "2023-05-05" ⟨2023, 5, 5⟩ 12 ⟨2025, 5, 5⟩ (by decide)]
          decide),
   inspection_status_classification.2.1 12 ⟨2025, 5, 5⟩⟩

/-- Claim C4: on every last-inspection date string that parses, is_overdue
holds exactly when get_days_until_due is negative at the same today. -/
theorem is_overdue_iff_negative_days (s : String) (last : Date) (months : Nat)
    (today : Date) (h : parseDate s = some last) :
    isOverdue s months today = true ↔ getDaysUntilDue s months today < 0 := by
  have hs : s ≠ "" := parseDate_ne_empty s last h
  simp [isOverdue, getDaysUntilDue, hs, h]

/-- Witness for C4 at a concrete parsed date and today. -/
theorem is_overdue_iff_negative_days_witness :
    isOverdue "2024-01-01" 12 ⟨2024, 12, 27⟩ = true ↔
      getDaysUntilDue "2024-01-01" 12 ⟨2024, 12, 27⟩ < 0 :=
  is_overdue_iff_negative_days "2024-01-01" ⟨2024, 1, 1⟩ 12 ⟨2024, 12, 27⟩ (by decide)

/-- Claim C5: calculate_next_inspection_date adds exactly
validity_months * 30 days to the parsed last-inspection date (the
30-day-month convention), and on 2024-03-15 with 12 months it returns
2025-03-10, not the calendar-year 2025-03-15. -/
theorem calculate_next_inspection_date_spec :
    (∀ (s : String) (last : Date) (months : Nat),
        parseDate s = some last →
          calculateNextInspectionDate s months = formatDate (addDays last (months * 30)) ∧
          Valid (addDays last (months * 30)) ∧
          toRata (addDays last (months * 30)) = toRata last + months * 30) ∧
    calculateNextInspectionDate "2024-03-15" 12 = "2025-03-10" := by
  constructor
  · intro s last months h
    obtain ⟨hr, hv⟩ := toRata_addDays last (parseDate_valid s last h) (months * 30)
    exact ⟨by simp [calculateNextInspectionDate, h], hv, hr⟩
  · have hp : parseDate "2024-03-15" = some ⟨2024, 3, 15⟩ := by decide
    have ha : addDays ⟨2024, 3, 15⟩ (12 * 30) = ⟨2025, 3, 10⟩ :=
      addDays_concrete ⟨2024, 3, 15⟩ ⟨2025, 3, 10⟩ (12 * 30) (by decide) (by decide)
        (by decide)
    rw [calculateNextInspectionDate, hp]
    show formatDate (addDays ⟨2024, 3, 15⟩ (12 * 30)) = "2025-03-10"
    rw [ha]
    decide

/-- Witness for C5 at a concrete date and validity. -/
theorem calculate_next_inspection_date_spec_witness :
    calculateNextInspectionDate "2024-01-01" 12
        = formatDate (addDays ⟨2024, 1, 1⟩ (12 * 30)) ∧
      Valid (addDays ⟨2024, 1, 1⟩ (12 * 30)) ∧
      toRata (addDays ⟨2024, 1, 1⟩ (12 * 30)) = toRata ⟨2024, 1, 1⟩ + 12 * 30 :=
  calculate_next_inspection_date_spec.1 "2024-01-01" ⟨2024, 1, 1⟩ 12 (by decide)

/-- Claim C9: on every non-empty string that does not parse as a
YYYY-MM-DD date, each date operation of the status/validity component
returns its typed failure value instead of propagating the parse error:
both field validators return false with the format message, date-range
validation returns false whichever side the bad string is on, the next-due
computation returns the empty string, the overdue check returns false, the
days-until-due count returns 0, and the status result carries the error
status. -/
theorem malformed_date_typed_failure (s : String) (hs : s ≠ "")
    (hp : parseDate s = none) :
    (∀ today : Date,
        validateInspectionDate s today
          = (false, "Formato de data inválido. Use YYYY-MM-DD")) ∧
    (∀ today : Date,
        validateLastInspectionDate s today
          = (false, "Formato de data inválido. Use YYYY-MM-DD")) ∧
    (∀ e : String, (validateDateRange s e).1 = false ∧ (validateDateRange e s).1 = false) ∧
    (∀ months : Nat, calculateNextInspectionDate s months = "") ∧
    (∀ (months : Nat) (today : Date), isOverdue s months today = false) ∧
    (∀ (months : Nat) (today : Date), getDaysUntilDue s months today = 0) ∧
    (∀ (months : Nat) (today : Date),
        (getInspectionStatus s months today).status = InspStatus.error) := by
  refine ⟨?_, ?_, ?_, ?_, ?_, ?_, ?_⟩
  · intro today
    simp [validateInspectionDate, hs, hp]
  · intro today
    simp [validateLastInspectionDate, hs, hp]
  · intro e
    constructor
    · by_cases he : e = "" <;> simp [validateDateRange, he, hs, hp]
    · by_cases he : e = ""
      · simp [validateDateRange, he]
      · cases hpe : parseDate e <;> simp [validateDateRange, he, hs, hp, hpe]
  · intro months
    simp [calculateNextInspectionDate, hp]
  · intro months today
    simp [isOverdue, hs, hp]
  · intro months today
    simp [getDaysUntilDue, hs, hp]
  · intro months today
    simp [getInspectionStatus, hs, hp]

/-- Witness for C9 on the malformed string 2024-13-01 (month 13). -/
theorem malformed_date_typed_failure_witness :
    validateInspectionDate "2024-13-01" ⟨2024, 6, 1⟩
        = (false, "Formato de data inválido. Use YYYY-MM-DD") ∧
      calculateNextInspectionDate "2024-13-01" 7 = "" ∧
      (getInspectionStatus "2024-13-01" 12 ⟨2024, 6, 1⟩).status = InspStatus.error :=
  ⟨(malformed_date_typed_failure "2024-13-01" (by decide) (by decide)).1 ⟨2024, 6, 1⟩,
   (malformed_date_typed_failure "2024-13-01" (by decide) (by decide)).2.2.2.1 7,
   (malformed_date_typed_failure "2024-13-01" (by decide) (by decide)).2.2.2.2.2.2 12
     ⟨2024, 6, 1⟩⟩

/-- Claim C1 (code bug): resubmitting a stored record with every field
value unchanged (first conjunct: the row rebuilt from the submission
differs from the stored row only in updated_at, so zero fields change)
still appends five change-log rows, one per column whose database name
differs from its form-key name (tipo_equipamento, categoria_rti,
ultima_inspecao, data_inspecao, tipo_dano), each recording an empty new
value: _log_changes reads the new values with the snake_case column keys
while the submission carries the camelCase form keys that the UPDATE
statement itself reads.  The claim requires zero rows here. -/
theorem update_identical_resubmission_spurious_log :
    rowFromData 1 identicalResubmission sampleRow.created_at "T1"
        = { sampleRow with updated_at := "T1" } ∧
      updateInspection sampleState 1 identicalResubmission "T1"
        = ({ sampleState with
              inspecoes := [{ sampleRow with updated_at := "T1" }]
              historico :=
                [⟨1, "tipo_equipamento", "Vaso de Pressão", ""⟩,
                 ⟨1, "categoria_rti", "II", ""⟩,
                 ⟨1, "ultima_inspecao", "2024-01-01", ""⟩,
                 ⟨1, "data_inspecao", "2024-01-10", ""⟩,
                 ⟨1, "tipo_dano", "Localizado", ""⟩] },
           true) := by
  decide

/-- Counterexample to C2 as stated: a field set whose tag (a required field
under the claim, which excepts only notes and the photo reference) is empty
passes validate_form, and the create path inserts a row. -/
theorem create_empty_tag_inserts_counterexample :
    strim (dget tagEmptySubmission "tag") = "" ∧
      validateForm tagEmptySubmission = true ∧
      (createInspection emptyState tagEmptySubmission "T0").2 = some 1 ∧
      (createInspection emptyState tagEmptySubmission "T0").1.inspecoes ≠ [] := by
  decide

/-- Claim C2 as amended: for every field set in which one of the eleven
fields checked by validate_form (all fields except the tag, the notes and
the photo reference) is empty after stripping, the create path reports a
validation failure and inserts nothing: the state is returned unchanged. -/
theorem create_empty_required_field_rejected (st : DBState) (data : Dict)
    (now : String) (k : String) (hk : k ∈ requiredFields)
    (h : strim (dget data k) = "") :
    createInspection st data now = (st, none) := by
  have hval : validateForm data = false := by
    rw [Bool.eq_false_iff]
    intro hall
    rw [validateForm, List.all_eq_true] at hall
    have hcontra := hall k hk
    simp [h] at hcontra
  simp [createInspection, hval]

/-- Witness for the amended C2: an all-blank plataforma field (whitespace
only) blocks the insert. -/
theorem create_empty_required_field_rejected_witness :
    createInspection emptyState [("plataforma", " ")] "T0" = (emptyState, none) :=
  create_empty_required_field_rejected emptyState [("plataforma", " ")] "T0"
    "plataforma" (by decide) (by decide)

/-- Counterexample to C6 as stated: deleting a missing id returns True (the
DELETE matches nothing and the commit succeeds), not a failure flag, both
on an empty table and next to unrelated rows. -/
theorem delete_nonexistent_returns_true_counterexample :
    deleteInspection emptyState 1 = (emptyState, true) ∧
      deleteInspection sampleState 99 = (sampleState, true) := by
  decide

/-- Claim C6 as amended: for every identifier not present in the
inspections table, delete_inspection changes no state (no rows, no log
rows, no files) but returns True, not a failure flag. -/
theorem delete_nonexistent_no_state_change (st : DBState) (iid : Nat)
    (h : ∀ r ∈ st.inspecoes, r.id ≠ iid) :
    deleteInspection st iid = (st, true) := by
  have hf : st.inspecoes.find? (fun r => r.id == iid) = none := by
    rw [List.find?_eq_none]
    intro r hr
    simpa using h r hr
  simp [deleteInspection, hf]

/-- Witness for the amended C6 on the empty table. -/
theorem delete_nonexistent_no_state_change_witness :
    deleteInspection emptyState 2 = (emptyState, true) :=
  delete_nonexistent_no_state_change emptyState 2 (by decide)

/-- Claim C10: update_inspection on an identifier not present in the table
returns False before performing any write: the state (rows, change log,
files, id counter) is returned unchanged. -/
theorem update_nonexistent_returns_false (st : DBState) (iid : Nat) (data : Dict)
    (now : String) (h : ∀ r ∈ st.inspecoes, r.id ≠ iid) :
    updateInspection st iid data now = (st, false) := by
  have hf : st.inspecoes.find? (fun r => r.id == iid) = none := by
    rw [List.find?_eq_none]
    intro r hr
    simpa using h r hr
  simp [updateInspection, hf]

/-- Witness for C10 on the empty table. -/
theorem update_nonexistent_returns_false_witness :
    updateInspection emptyState 7 [("plataforma", "P-1")] "T2" = (emptyState, false) :=
  update_nonexistent_returns_false emptyState 7 [("plataforma", "P-1")] "T2" (by decide)

/-! ## Lemmas about the photo-removal loop and the batch loop -/

lemma mem_of_mem_removeReferencedPhotos (rows : List Row) (files : List String)
    (x : String) (hx : x ∈ removeReferencedPhotos rows files) : x ∈ files := by
  induction rows generalizing files with
  | nil => simpa [removeReferencedPhotos] using hx
  | cons r rest ih =>
    rw [removeReferencedPhotos] at hx
    have h2 := ih _ hx
    split at h2
    · exact h2
    · exact (List.mem_filter.mp h2).1

lemma not_mem_removeReferencedPhotos (rows : List Row) (files : List String)
    (r0 : Row) (hr : r0 ∈ rows) (hne : r0.foto_path ≠ "") :
    r0.foto_path ∉ removeReferencedPhotos rows files := by
  induction rows generalizing files with
  | nil => cases hr
  | cons r rest ih =>
    intro hx
    rw [removeReferencedPhotos] at hx
    rcases List.mem_cons.mp hr with rfl | hr2
    · have h2 := mem_of_mem_removeReferencedPhotos _ _ _ hx
      rw [if_neg hne] at h2
      have h3 := (List.mem_filter.mp h2).2
      simp at h3
    · exact ih _ hr2 hx

lemma batch_foldl_aux (env : ReportEnv) (l : List Dict) (acc : List String) :
    l.foldl
        (fun acc insp =>
          match generateInspectionReport env insp (dget insp "foto_path") with
          | Except.ok p => acc ++ [p]
          | Except.error _ => acc)
        acc
      = acc ++ l.filterMap
          (fun insp => (generateInspectionReport env insp (dget insp "foto_path")).toOption) := by
  induction l generalizing acc with
  | nil => simp
  | cons i rest ih =>
    rw [List.foldl_cons, List.filterMap_cons]
    cases hg : generateInspectionReport env i (dget i "foto_path") <;>
      simp [hg, ih, Except.toOption]

lemma generateBatchReports_eq_filterMap (env : ReportEnv) (l : List Dict) :
    generateBatchReports env l
      = l.filterMap
          (fun insp => (generateInspectionReport env insp (dget insp "foto_path")).toOption) := by
  rw [generateBatchReports, batch_foldl_aux]
  simp

lemma recordRenders_iff (env : ReportEnv) (insp : Dict) :
    (generateInspectionReport env insp (dget insp "foto_path")).toOption.isSome
      = recordRenders env insp := by
  by_cases hp : dget insp "foto_path" = "" <;>
    cases hfe : env.fileExists (dget insp "foto_path") <;>
      cases hir : env.imageRenders (dget insp "foto_path") <;>
        simp [generateInspectionReport, recordRenders, Except.toOption, hp, hfe, hir]

lemma length_filterMap_reports (env : ReportEnv) (l : List Dict) :
    (l.filterMap
        (fun insp => (generateInspectionReport env insp (dget insp "foto_path")).toOption)).length
      = (l.filter (recordRenders env)).length := by
  induction l with
  | nil => rfl
  | cons i rest ih =>
    rw [List.filterMap_cons, List.filter_cons]
    have hrr := recordRenders_iff env i
    cases hg : (generateInspectionReport env i (dget i "foto_path")).toOption <;>
      rw [hg] at hrr <;> simp at hrr <;> simp [hrr, ih]

lemma countP_not_split (p : Dict → Bool) (l : List Dict) :
    l.countP p + l.countP (fun a => !(p a)) = l.length := by
  induction l with
  | nil => rfl
  | cons i rest ih => cases h : p i <;> simp [List.countP_cons, h] <;> omega

/-- Claim C7: batch report generation is per-record independent: the number
of produced reports always equals the number of records whose rendering
succeeds, so when exactly one record fails to render (its photo reference
names an existing file that the document builder cannot render as an
image; a merely missing file is skipped by the photo-section guard and
does not fail the record), N records yield N-1 reports, the reported
success count over N is accurate, and a failing record in the middle of
the batch is skipped while every other record is still processed. -/
theorem generate_batch_reports_spec (env : ReportEnv) (inspections : List Dict) :
    (generateBatchReports env inspections).length
        = (inspections.filter (recordRenders env)).length ∧
      (inspections.countP (fun i => !(recordRenders env i)) = 1 →
        (generateBatchReports env inspections).length = inspections.length - 1) ∧
      (∀ (pre post : List Dict) (bad : Dict), recordRenders env bad = false →
        generateBatchReports env (pre ++ bad :: post)
          = generateBatchReports env pre ++ generateBatchReports env post) := by
  have hlen : (generateBatchReports env inspections).length
      = (inspections.filter (recordRenders env)).length := by
    rw [generateBatchReports_eq_filterMap, length_filterMap_reports]
  refine ⟨hlen, ?_, ?_⟩
  · intro hone
    have hsplit := countP_not_split (recordRenders env) inspections
    have hfl : inspections.countP (recordRenders env)
        = (inspections.filter (recordRenders env)).length :=
      List.countP_eq_length_filter _ _
    omega
  · intro pre post bad hbad
    have hnone : (generateInspectionReport env bad (dget bad "foto_path")).toOption = none := by
      have hrr := recordRenders_iff env bad
      rw [hbad] at hrr
      cases hg : (generateInspectionReport env bad (dget bad "foto_path")).toOption
      · rfl
      · rw [hg] at hrr
        simp at hrr
    rw [generateBatchReports_eq_filterMap, generateBatchReports_eq_filterMap,
      generateBatchReports_eq_filterMap, List.filterMap_append, List.filterMap_cons, hnone]

/-- Witness for C7: two records, one with a renderable photo and one whose
existing photo file cannot be rendered, yield one report out of two. -/
theorem generate_batch_reports_spec_witness :
    (generateBatchReports sampleEnv [goodInsp, badInsp]).length
      = [goodInsp, badInsp].length - 1 :=
  (generate_batch_reports_spec sampleEnv [goodInsp, badInsp]).2.1 (by decide)

/-- Claim C8: whenever clear_all_inspections reports success both tables
are left empty; independently of the outcome, every non-empty photo path
referenced by a stored record is gone from the disk afterwards, and the
success flag never depends on which photo files were still present (an
already-absent file is skipped, not an error). -/
theorem clear_all_inspections_spec (st : DBState) :
    ((clearAllInspections st).2 = true →
        (clearAllInspections st).1.inspecoes = []
          ∧ (clearAllInspections st).1.historico = []) ∧
      (∀ r ∈ st.inspecoes, r.foto_path ≠ "" →
        r.foto_path ∉ (clearAllInspections st).1.files) ∧
      (∀ fs : List String,
        (clearAllInspections { st with files := fs }).2 = (clearAllInspections st).2) := by
  refine ⟨?_, ?_, ?_⟩
  · intro hok
    cases hc : st.inspecoes.any (fun r => st.historico.any (fun l => l.inspecao_id == r.id)) <;>
      simp [clearAllInspections, hc] at hok ⊢
  · intro r hr hne
    cases hc : st.inspecoes.any (fun r => st.historico.any (fun l => l.inspecao_id == r.id)) <;>
      simp [clearAllInspections, hc] <;>
        exact not_mem_removeReferencedPhotos st.inspecoes st.files r hr hne
  · intro fs
    cases hc : st.inspecoes.any (fun r => st.historico.any (fun l => l.inspecao_id == r.id)) <;>
      simp [clearAllInspections, hc]

/-- Witness for C8: clearing the sample state empties the table, removes
the referenced photo, and an externally pre-removed photo directory does
not change the success flag. -/
theorem clear_all_inspections_spec_witness :
    (clearAllInspections sampleState).1.inspecoes = [] ∧
      sampleRow.foto_path ∉ (clearAllInspections sampleState).1.files ∧
      (clearAllInspections { sampleState with files := [] }).2
        = (clearAllInspections sampleState).2 :=
  ⟨((clear_all_inspections_spec sampleState).1 (by decide)).1,
   (clear_all_inspections_spec sampleState).2.1 sampleRow (by decide) (by decide),
   (clear_all_inspections_spec sampleState).2.2 []⟩
